import Mathlib

/-!
Verification development for the qq-channel connector.

The TypeScript sources are shallowly embedded as executable Lean
definitions:

* JavaScript strings are modelled as Lean `String`s; where the source
  depends on JavaScript string semantics (UTF-16 code-unit length,
  `slice`, `TextEncoder`) we convert with `strUnits` / `utf8Encode`.
* Stateful classes (`QQApiClient`, `QQChannelRuntime`, the webhook
  server) become explicit state-passing functions; network calls and
  timers become explicit outcome parameters and emitted event lists.
* Calls into the external `@noble/ed25519` library are parameters of the
  embedding (the library is an external collaborator, not repository
  code); exceptions it may raise are modelled with `Except`.

Where a file exists in two versions (the socket runtime), the newer
version — the one with fatal-close-code and session-quota handling —
is embedded, matching the design notes in the repository documentation.
-/

/- ## JavaScript string model -/

/-- UTF-16 code units of one Unicode scalar value (JavaScript string
element model: BMP scalar is one unit, astral scalar a surrogate pair). -/
def charUnits (c : Char) : List Nat :=
  if c.toNat < 0x10000 then [c.toNat]
  else [0xD800 + (c.toNat - 0x10000) / 0x400, 0xDC00 + (c.toNat - 0x10000) % 0x400]

/-- UTF-16 code-unit sequence of a string (what JavaScript `.length`,
`.slice` and index positions are measured in). -/
def strUnits (s : String) : List Nat :=
  (s.data.map charUnits).flatten

/-- JavaScript `string.length`: the number of UTF-16 code units. -/
def jsLen (s : String) : Nat :=
  (strUnits s).length

/-- UTF-8 bytes of one code unit that is a valid BMP scalar value. -/
def utf8EncodeUnit (u : Nat) : List Nat :=
  if u < 0x80 then [u]
  else if u < 0x800 then [0xC0 + u / 0x40, 0x80 + u % 0x40]
  else [0xE0 + u / 0x1000, 0x80 + (u / 0x40) % 0x40, 0x80 + u % 0x40]

/-- UTF-8 bytes of a Unicode scalar value (including astral scalars). -/
def utf8EncodeScalar (c : Nat) : List Nat :=
  if c < 0x10000 then utf8EncodeUnit c
  else [0xF0 + c / 0x40000, 0x80 + (c / 0x1000) % 0x40, 0x80 + (c / 0x40) % 0x40,
        0x80 + c % 0x40]

/-- Test for a UTF-16 high (leading) surrogate code unit. -/
def isHighSurrogate (u : Nat) : Bool :=
  decide (0xD800 ≤ u) && decide (u ≤ 0xDBFF)

/-- Test for a UTF-16 low (trailing) surrogate code unit. -/
def isLowSurrogate (u : Nat) : Bool :=
  decide (0xDC00 ≤ u) && decide (u ≤ 0xDFFF)

/-- UTF-8 encoding of a UTF-16 code-unit sequence, as performed by
JavaScript `TextEncoder.encode`: surrogate pairs are combined, lone
surrogates become U+FFFD. -/
def utf8Encode : List Nat → List Nat
  | [] => []
  | [u] =>
    if isHighSurrogate u || isLowSurrogate u then utf8EncodeScalar 0xFFFD
    else utf8EncodeUnit u
  | u :: v :: rest =>
    if isHighSurrogate u then
      if isLowSurrogate v then
        utf8EncodeScalar (0x10000 + (u - 0xD800) * 0x400 + (v - 0xDC00)) ++ utf8Encode rest
      else utf8EncodeScalar 0xFFFD ++ utf8Encode (v :: rest)
    else if isLowSurrogate u then utf8EncodeScalar 0xFFFD ++ utf8Encode (v :: rest)
    else utf8EncodeUnit u ++ utf8Encode (v :: rest)

/- ## Hex encoding and decoding (src/webhook/signature.ts) -/

/-- Lower-case hexadecimal digit character for a value below 16
(as produced by JavaScript `Number.toString(16)`). -/
def hexDigitChar (n : Nat) : Char :=
  if n < 10 then Char.ofNat (48 + n) else Char.ofNat (87 + n)

/-- JavaScript `b.toString(16).padStart(2, '0')` for a byte value. -/
def byteToHex (b : Nat) : String :=
  String.mk [hexDigitChar (b / 16), hexDigitChar (b % 16)]

/-- Embedding of `bytesToHex` from src/webhook/signature.ts. -/
def bytesToHex (bytes : List Nat) : String :=
  String.join (bytes.map byteToHex)

/-- Test whether a code unit is JavaScript whitespace for `parseInt`. -/
def isWhiteUnit (u : Nat) : Bool :=
  decide (u = 32) || decide (u = 9) || decide (u = 10) || decide (u = 13) ||
  decide (u = 11) || decide (u = 12) || decide (u = 0xFEFF) || decide (u = 0xA0)

/-- Hexadecimal value of a code unit, if it is a hex digit. -/
def hexDigitVal (u : Nat) : Option Nat :=
  if 48 ≤ u ∧ u ≤ 57 then some (u - 48)
  else if 97 ≤ u ∧ u ≤ 102 then some (u - 87)
  else if 65 ≤ u ∧ u ≤ 70 then some (u - 55)
  else none

/-- Longest leading run of hexadecimal digits, as digit values. -/
def hexDigitsLead : List Nat → List Nat
  | [] => []
  | u :: rest =>
    match hexDigitVal u with
    | some d => d :: hexDigitsLead rest
    | none => []

/-- JavaScript `parseInt(s, 16)`: skip whitespace, optional sign,
optional `0x` marker, then the longest leading hex-digit run; `none`
models `NaN` (no digits). -/
def parseIntHex (s : List Nat) : Option Int :=
  let s1 := s.dropWhile isWhiteUnit
  let signAndRest : Bool × List Nat :=
    match s1 with
    | 45 :: rest => (true, rest)
    | 43 :: rest => (false, rest)
    | _ => (false, s1)
  let s2 :=
    match signAndRest.2 with
    | 48 :: 120 :: rest => rest
    | 48 :: 88 :: rest => rest
    | _ => signAndRest.2
  let ds := hexDigitsLead s2
  if ds.isEmpty then none
  else
    let mag : Int := ds.foldl (fun acc d => acc * 16 + (d : Int)) 0
    some (if signAndRest.1 then -mag else mag)

/-- Storing a JavaScript number into a `Uint8Array` element: `NaN`
becomes 0, other values are taken modulo 256. -/
def jsToUint8 : Option Int → Nat
  | none => 0
  | some v => (v % 256).toNat

/-- Embedding of `hexToBytes` from src/webhook/signature.ts: allocates
`hex.length / 2` bytes and fills byte `i` with
`parseInt(hex.substring(2 * i, 2 * i + 2), 16)`. -/
def hexToBytes (hex : String) : List Nat :=
  (List.range (jsLen hex / 2)).map
    (fun i => jsToUint8 (parseIntHex (((strUnits hex).drop (2 * i)).take 2)))

/- ## Ed25519 seed derivation (src/webhook/signature.ts, deriveSeed) -/

/-- Fuel-bounded embedding of the doubling loop
`while (seed.length < 32) seed = seed + seed;`, which compares the
JavaScript (UTF-16 code-unit) length. Any nonempty seed exceeds 31 code
units within five doublings, so fuel 32 is never exhausted for the
nonempty secrets the theorems quantify over; for the empty secret the
source loop does not terminate at all. -/
def doubleWhile : Nat → String → String
  | 0, seed => seed
  | fuel + 1, seed => if jsLen seed < 32 then doubleWhile fuel (seed ++ seed) else seed

/-- Doubling phase of `deriveSeed`. -/
def repeatToLen (seed : String) : String :=
  doubleWhile 32 seed

/-- Embedding of `deriveSeed` from src/webhook/signature.ts:
`seed.slice(0, 32)` takes the first 32 UTF-16 code units, then
`TextEncoder.encode` produces UTF-8 bytes. -/
def deriveSeed (botSecret : String) : List Nat :=
  utf8Encode ((strUnits (repeatToLen botSecret)).take 32)

/-- Embedding of `getPrivateKey` from src/webhook/signature.ts. -/
def getPrivateKey (botSecret : String) : List Nat :=
  deriveSeed botSecret

/-- Modelled from the spec: the signature-key derivation as the spec
words it — self-concatenate until the UTF-8 byte length is at least 32,
then take exactly the first 32 bytes of the UTF-8 encoding. Stated on
the UTF-8 byte sequence of the secret; used only to compare the source
derivation against the spec. Fuel-bounded like `doubleWhile`. -/
def specRepeatBytes : Nat → List Nat → List Nat
  | 0, bytes => bytes
  | fuel + 1, bytes =>
    if bytes.length < 32 then specRepeatBytes fuel (bytes ++ bytes) else bytes

/-- Modelled from the spec: the full byte-measured seed derivation
(the claim's description of `deriveSeed`). -/
def deriveSeedSpec (botSecret : String) : List Nat :=
  (specRepeatBytes 32 (utf8Encode (strUnits botSecret))).take 32

/-- Concrete non-ASCII secret used to separate the code's code-unit
measured derivation from the spec's byte-measured one: a single
U+00E9 character (1 UTF-16 code unit, 2 UTF-8 bytes). -/
def eAcuteSecret : String :=
  String.mk [Char.ofNat 0xE9]

/- ## Ed25519 library calls as parameters

The `@noble/ed25519` functions are external dependencies, so the
embedding takes them as function parameters; `Except String` models the
exceptions they may raise (for example on a key that is not exactly 32
bytes). -/

/-- Embedding of `getPublicKey` from src/webhook/signature.ts, with
`ed.getPublicKey` passed in as `edGetPublicKey`. -/
def getPublicKey (edGetPublicKey : List Nat → Except String (List Nat))
    (botSecret : String) : Except String (List Nat) :=
  edGetPublicKey (getPrivateKey botSecret)

/-- Body of `verifySignature` from src/webhook/signature.ts (the code
inside the `try` block), with the possibly-throwing library calls
explicit. -/
def verifySignatureE (edGetPublicKey : List Nat → Except String (List Nat))
    (edVerify : List Nat → List Nat → List Nat → Except String Bool)
    (signature timestamp body botSecret : String) : Except String Bool := do
  let messageBytes := utf8Encode (strUnits (timestamp ++ body))
  let signatureBytes := hexToBytes signature
  let publicKey ← getPublicKey edGetPublicKey botSecret
  edVerify signatureBytes messageBytes publicKey

/-- Embedding of `verifySignature` from src/webhook/signature.ts: the
`try`/`catch` wrapper that turns any raised exception into `false`. -/
def verifySignature (edGetPublicKey : List Nat → Except String (List Nat))
    (edVerify : List Nat → List Nat → List Nat → Except String Bool)
    (signature timestamp body botSecret : String) : Bool :=
  match verifySignatureE edGetPublicKey edVerify signature timestamp body botSecret with
  | .ok b => b
  | .error _ => false

/-- Embedding of `signCallbackResponse` from src/webhook/signature.ts,
with `ed.sign` passed in as `edSign` (message bytes, private key). -/
def signCallbackResponse (edSign : List Nat → List Nat → List Nat)
    (eventTs plainToken botSecret : String) : String :=
  bytesToHex (edSign (utf8Encode (strUnits (eventTs ++ plainToken))) (getPrivateKey botSecret))

/- ## Credential manager (QQApiClient.getAccessToken, src/api/client.ts) -/

/-- JavaScript truthiness of a nullable string field: `null`/`undefined`
and the empty string are falsy. -/
def jsTruthy : Option String → Bool
  | none => false
  | some s => !(s == "")

/-- Mutable fields of `QQApiClient` relevant to `getAccessToken`. -/
structure ClientState where
  accessToken : Option String
  tokenExpiresAt : Nat
  deriving Repr, DecidableEq

/-- Field initializers of `QQApiClient` (`accessToken = null`,
`tokenExpiresAt = 0`). -/
def emptyClientState : ClientState :=
  { accessToken := none, tokenExpiresAt := 0 }

/-- Outcome of the `fetch` to the token-issuance endpoint. -/
inductive FetchOutcome
  | ok (access_token : String) (expires_in : Nat)
  | httpError (status : Nat) (text : String)
  | networkError (msg : String)
  deriving Repr, DecidableEq

/-- Body of one POST to the token-issuance endpoint. -/
structure TokenRequest where
  appId : String
  clientSecret : String
  deriving Repr, DecidableEq

/-- Result of a `getAccessToken` call: a returned value or a thrown
error (a rejected promise). -/
inductive TokenResult
  | value (token : String)
  | thrown (msg : String)
  deriving Repr, DecidableEq

/-- Outcome of the synchronous part of `getAccessToken` up to the
`await fetch`: either the cached token is returned, or a network
request is issued and the call suspends. -/
inductive Phase1Result
  | cached (token : String)
  | requested
  deriving Repr, DecidableEq

/-- Synchronous part of `getAccessToken` before its first `await`: the
cache check `!forceRefresh && this.accessToken &&
this.tokenExpiresAt > now + 60 * 1000`. No state is written here. -/
def phase1 (forceRefresh : Bool) (now : Nat) (st : ClientState) : Phase1Result :=
  if !forceRefresh && jsTruthy st.accessToken
      && decide (st.tokenExpiresAt > now + 60 * 1000) then
    .cached (st.accessToken.getD "")
  else
    .requested

/-- Resumption of `getAccessToken` after a successful response: store
`access_token` and `now + expires_in * 1000`, return the token. -/
def phase2 (now : Nat) (access_token : String) (expires_in : Nat) :
    ClientState × String :=
  ({ accessToken := some access_token, tokenExpiresAt := now + expires_in * 1000 },
   access_token)

/-- Embedding of `QQApiClient.getAccessToken` as one uninterrupted call:
the composition of `phase1` and `phase2`, with the issuance-endpoint
outcome passed in. Returns the call result, the client state after the
call, and the list of requests the call sent to the endpoint. -/
def getAccessToken (forceRefresh : Bool) (now : Nat) (st : ClientState)
    (appId appSecret : String) (outcome : FetchOutcome) :
    TokenResult × ClientState × List TokenRequest :=
  match phase1 forceRefresh now st with
  | .cached t => (.value t, st, [])
  | .requested =>
    let req : TokenRequest := { appId := appId, clientSecret := appSecret }
    match outcome with
    | .ok tok exp =>
      let r := phase2 now tok exp
      (.value r.2, r.1, [req])
    | .httpError status text =>
      (.thrown ("Failed to get access token: " ++ toString status ++ " " ++ text),
       st, [req])
    | .networkError msg => (.thrown msg, st, [req])

/-- Two `getAccessToken` calls overlapping on the single-threaded event
loop: caller A runs `phase1` and suspends at `await fetch`; caller B
then runs its `phase1` against the still-unmodified state (the cache is
only written in `phase2`, after the response). Returns how many
requests reach the issuance endpoint. -/
def twoConcurrentCalls (now : Nat) (st : ClientState) : Nat :=
  let aReq := match phase1 false now st with | .requested => 1 | .cached _ => 0
  let bReq := match phase1 false now st with | .requested => 1 | .cached _ => 0
  aReq + bReq

/- ## Socket runtime (QQChannelRuntime, newer version with fatal-code
and session-quota handling) -/

/-- Embedding of `FATAL_CLOSE_CODES`. -/
def fatalCloseCodes : List Nat :=
  [4004, 4010, 4011, 4012, 4013, 4014, 4903]

/-- Embedding of `maxReconnectAttempts = 5`. -/
def maxReconnectAttempts : Nat := 5

/-- Embedding of `baseReconnectDelay = 5000`. -/
def baseReconnectDelay : Nat := 5000

/-- Errors passed to the `onError` callback. -/
inductive RtError
  | fatalClose (code : Nat)
  | maxReconnect
  | quotaExhausted (resetTimeMs : Nat)
  deriving Repr, DecidableEq

/-- Observable actions of the runtime: `onError` invocations, reconnect
timers armed by `scheduleReconnect`, sockets opened by `start`, and
`onReady` invocations. -/
inductive RtEvent
  | errorEmitted (e : RtError)
  | reconnectScheduled (delayMs : Nat)
  | socketOpened (url : String)
  | readyEmitted (sessionId : String)
  deriving Repr, DecidableEq

/-- Mutable fields of `QQChannelRuntime`. -/
structure RuntimeState where
  lastSequence : Option Int
  sessionId : Option String
  reconnectAttempts : Nat
  isClosing : Bool
  isFatalError : Bool
  lastCloseCode : Option Nat
  heartbeatActive : Bool
  deriving Repr, DecidableEq

/-- Field initializers of `QQChannelRuntime`. -/
def initialRuntimeState : RuntimeState :=
  { lastSequence := none, sessionId := none, reconnectAttempts := 0,
    isClosing := false, isFatalError := false, lastCloseCode := none,
    heartbeatActive := false }

/-- Embedding of `scheduleReconnect`: guard on `isClosing`/
`isFatalError`, terminal error once the attempt budget is spent,
otherwise increment the counter and arm a timer with delay
`min(baseReconnectDelay * 2 ^ (attempts - 1), 300000)`. -/
def scheduleReconnect (st : RuntimeState) : RuntimeState × List RtEvent :=
  if st.isClosing || st.isFatalError then (st, [])
  else if st.reconnectAttempts ≥ maxReconnectAttempts then
    (st, [.errorEmitted .maxReconnect])
  else
    let st' := { st with reconnectAttempts := st.reconnectAttempts + 1 }
    let delay := baseReconnectDelay * 2 ^ (st'.reconnectAttempts - 1)
    (st', [.reconnectScheduled (min delay 300000)])

/-- Embedding of the `close` handler installed by
`setupWebSocketHandlers`: stop the heartbeat, record the close code,
then either fail fatally (code in `FATAL_CLOSE_CODES`) or, when the
transport is not closing and not already failed, schedule a
reconnect. -/
def onClose (st : RuntimeState) (code : Nat) : RuntimeState × List RtEvent :=
  let st := { st with heartbeatActive := false, lastCloseCode := some code }
  if code ∈ fatalCloseCodes then
    ({ st with isFatalError := true }, [.errorEmitted (.fatalClose code)])
  else if !st.isClosing && !st.isFatalError then
    scheduleReconnect st
  else
    (st, [])

/-- Socket frame envelope fields read by `handlePayload` for the
sequence/session bookkeeping (opcode and optional sequence number). -/
structure WSPayload where
  op : Nat
  s : Option Int
  deriving Repr, DecidableEq

/-- Effect of `handlePayload` on the modelled fields: every frame whose
`s` is present overwrites `lastSequence` (no monotonicity guard in the
source); opcode 9 (InvalidSession) nulls `sessionId`. The remaining
opcode branches (Hello, Dispatch, HeartbeatAck, Reconnect) do not write
`lastSequence` or `sessionId`. -/
def handlePayload (st : RuntimeState) (p : WSPayload) : RuntimeState :=
  let st :=
    match p.s with
    | some v => { st with lastSequence := some v }
    | none => st
  if p.op = 9 then { st with sessionId := none } else st

/-- Folding `handlePayload` over the frames of one open connection. -/
def processFrames (st : RuntimeState) (ps : List WSPayload) : RuntimeState :=
  ps.foldl handlePayload st

/-- Sequence numbers carried by a frame list, in arrival order. -/
def carriedSeqs (ps : List WSPayload) : List Int :=
  ps.filterMap (fun p => p.s)

/-- Relation: the stored sequence number did not decrease between two
states (whenever the first state holds a value, the second holds one at
least as large). -/
def SeqMono (st st' : RuntimeState) : Prop :=
  ∀ w : Int, st.lastSequence = some w →
    ∃ v : Int, st'.lastSequence = some v ∧ w ≤ v

/-- Embedding of `QQChannelRuntime.stop`. -/
def stop (st : RuntimeState) : RuntimeState :=
  { st with
    isClosing := true
    heartbeatActive := false
    sessionId := none
    lastSequence := none
    reconnectAttempts := 0 }

/-- Ready dispatch payload fields read by `handleReady`. -/
structure ReadyPayload where
  session_id : String
  user_id : String
  username : String
  deriving Repr, DecidableEq

/-- Embedding of `handleReady`: capture the session id, reset the
reconnect-attempt counter to 0, invoke `onReady`. -/
def handleReady (st : RuntimeState) (data : ReadyPayload) : RuntimeState × List RtEvent :=
  ({ st with sessionId := some data.session_id, reconnectAttempts := 0 },
   [.readyEmitted data.session_id])

/-- Gateway-discovery `session_start_limit` object. -/
structure SessionStartLimit where
  total : Nat
  remaining : Nat
  reset_after : Nat
  max_concurrency : Nat
  deriving Repr, DecidableEq

/-- Gateway-discovery response; the source guards on the truthiness of
`session_start_limit`, modelled by `Option`. -/
structure GatewayResponse where
  url : String
  shards : Nat
  session_start_limit : Option SessionStartLimit
  deriving Repr, DecidableEq

/-- Embedding of `QQChannelRuntime.start` from the point where both the
token fetch and the gateway-discovery call have succeeded (their
failure path goes to the `catch` block, which is `onError` plus
`scheduleReconnect`, and is not taken under this claim's hypothesis):
reset the fatal flag on a manual start, check the session quota, then
either fail fatally without opening a socket or open one. -/
def startWithGateway (st : RuntimeState) (now : Nat) (g : GatewayResponse) :
    RuntimeState × List RtEvent :=
  let st := if st.reconnectAttempts = 0 then { st with isFatalError := false } else st
  match g.session_start_limit with
  | some lim =>
    if lim.remaining = 0 then
      ({ st with isFatalError := true },
       [.errorEmitted (.quotaExhausted (now + lim.reset_after))])
    else
      (st, [.socketOpened g.url])
  | none => (st, [.socketOpened g.url])

/- ## Process-wide token cache and Identify (module-level
`cachedAccessToken` in runtime.ts) -/

/-- Module-level state of runtime.ts: `let cachedAccessToken:
string | null = null` is one variable per process, shared by every
`QQChannelRuntime` instance in it. -/
structure ProcessState where
  cachedAccessToken : Option String
  deriving Repr, DecidableEq

/-- Initial module-level state. -/
def initialProcessState : ProcessState :=
  { cachedAccessToken := none }

/-- Identify frame fields produced by `sendIdentify`. -/
structure IdentifyFrame where
  op : Nat
  token : String
  intents : Nat
  shard : Nat × Nat
  deriving Repr, DecidableEq

/-- Embedding of `sendIdentify`: the token is the template literal
`QQBot (cachedAccessToken)` read from the module-level variable
(JavaScript renders `null` as the text "null"). -/
def sendIdentify (ps : ProcessState) : IdentifyFrame :=
  { op := 2,
    token := "QQBot " ++ ps.cachedAccessToken.getD "null",
    intents := 1 ||| 2 ||| 512 ||| 4096,
    shard := (0, 1) }

/-- One scheduler step of a process hosting several runtimes: account
`a` completes the token fetch in `start`/`reconnect` (which executes
`cachedAccessToken = await this.config.apiClient.getAccessToken(...)`
on the shared module variable), or account `a` receives Hello and sends
Identify. -/
inductive ProcStep
  | fetchToken (account : Nat) (token : String)
  | hello (account : Nat)
  deriving Repr, DecidableEq

/-- Run a list of scheduler steps, collecting every Identify frame sent
together with the account that sent it. -/
def runProc : ProcessState → List ProcStep → ProcessState × List (Nat × IdentifyFrame)
  | ps, [] => (ps, [])
  | ps, .fetchToken _ token :: rest =>
    runProc { ps with cachedAccessToken := some token } rest
  | ps, .hello a :: rest =>
    let r := runProc ps rest
    (r.1, (a, sendIdentify ps) :: r.2)

/- ## Webhook server (src/webhook/server.ts) -/

/-- Response body variants the server writes. -/
inductive ResponseBody
  | errorMsg (msg : String)
  | okMsg
  | validation (plain_token : String) (signature : String)
  deriving Repr, DecidableEq

/-- HTTP response: status code and body. -/
structure HttpResponse where
  status : Nat
  body : ResponseBody
  deriving Repr, DecidableEq

/-- Fields of `payload.d` read on the URL-validation path. `Option`
distinguishes absent fields; `some ""` is a present but empty string
(falsy in the source's checks). -/
structure URLValidationData where
  plain_token : Option String
  event_ts : Option String
  deriving Repr, DecidableEq

/-- Parsed webhook body fields the server reads: the opcode, the
dispatch event type `t`, and the `d` object. `d = none` models a body
whose `d` is absent or `null` — reading `data.plain_token` off it
throws a TypeError in the source — while `d = some data` models a
non-nullish `d` whose fields are then checked for truthiness. -/
structure WebhookPayload where
  op : Nat
  t : Option String
  d : Option URLValidationData
  deriving Repr, DecidableEq

/-- Embedding of `WebhookServer.handleURLValidation`: the handler reads
`data.plain_token` off `payload.d`, which throws when `d` is absent or
`null` (modelled as `.error`, caught by `processRequest`); with a
non-nullish `d` it answers 400 when `plain_token` or `event_ts` is
falsy (absent or empty), otherwise 200 with the signed response. -/
def handleURLValidation (edSign : List Nat → List Nat → List Nat)
    (appSecret : String) (payload : WebhookPayload) : Except String HttpResponse :=
  match payload.d with
  | none => .error "TypeError: cannot read plain_token of nullish d"
  | some data =>
    if !jsTruthy data.plain_token || !jsTruthy data.event_ts then
      .ok { status := 400, body := .errorMsg "Missing plain_token or event_ts" }
    else
      let pt := data.plain_token.getD ""
      let et := data.event_ts.getD ""
      .ok { status := 200,
            body := .validation pt (signCallbackResponse edSign et pt appSecret) }

/-- Embedding of `WebhookServer.handleDispatch`: acknowledge with 200
(missing event type is acknowledged too); a present event type is
processed asynchronously after the response, returned here as the list
of deferred event types. -/
def handleDispatch (payload : WebhookPayload) : HttpResponse × List String :=
  match payload.t with
  | none => ({ status := 200, body := .okMsg }, [])
  | some t =>
    if t == "" then ({ status := 200, body := .okMsg }, [])
    else ({ status := 200, body := .okMsg }, [t])

/-- Body of `WebhookServer.processRequest` after a successful JSON
parse (the code inside its `try` block): URL validation (op 13) is
handled before any signature check and may throw on a nullish `d`;
otherwise, when both signature headers are truthy the signature is
verified (mismatch gives 401) and absent headers only produce a
warning; then op 0 dispatches and anything else is acknowledged. -/
def processRequestE (edGetPublicKey : List Nat → Except String (List Nat))
    (edVerify : List Nat → List Nat → List Nat → Except String Bool)
    (edSign : List Nat → List Nat → List Nat)
    (appSecret : String) (signatureHeader timestampHeader : Option String)
    (rawBody : String) (payload : WebhookPayload) :
    Except String (HttpResponse × List String) :=
  if payload.op = 13 then do
    let r ← handleURLValidation edSign appSecret payload
    pure (r, [])
  else
    if jsTruthy signatureHeader && jsTruthy timestampHeader then
      if !verifySignature edGetPublicKey edVerify (signatureHeader.getD "")
          (timestampHeader.getD "") rawBody appSecret then
        .ok ({ status := 401, body := .errorMsg "Invalid signature" }, [])
      else if payload.op = 0 then .ok (handleDispatch payload)
      else .ok ({ status := 200, body := .okMsg }, [])
    else if payload.op = 0 then .ok (handleDispatch payload)
    else .ok ({ status := 200, body := .okMsg }, [])

/-- Embedding of `WebhookServer.processRequest`: the `catch` wrapper
around the body answers 500 on any unhandled exception (and dispatches
no deferred event). -/
def processRequest (edGetPublicKey : List Nat → Except String (List Nat))
    (edVerify : List Nat → List Nat → List Nat → Except String Bool)
    (edSign : List Nat → List Nat → List Nat)
    (appSecret : String) (signatureHeader timestampHeader : Option String)
    (rawBody : String) (payload : WebhookPayload) : HttpResponse × List String :=
  match processRequestE edGetPublicKey edVerify edSign appSecret signatureHeader
      timestampHeader rawBody payload with
  | .ok r => r
  | .error _ => ({ status := 500, body := .errorMsg "Internal server error" }, [])

/- ## Concrete inputs used by counterexamples and witnesses -/

/-- Runtime state with the reconnect-attempt budget already spent. -/
def exhaustedRuntimeState : RuntimeState :=
  { initialRuntimeState with reconnectAttempts := 5 }

/-- Two frames whose carried sequence numbers decrease: 5 then 3. -/
def decreasingFrames : List WSPayload :=
  [{ op := 0, s := some 5 }, { op := 0, s := some 3 }]

/-- Two frames whose carried sequence numbers are nondecreasing. -/
def demoFrames : List WSPayload :=
  [{ op := 0, s := some 2 }, { op := 11, s := some 5 }]

/-- Trace: account 0 fetches its token, account 1 fetches token `tb`,
account 0 receives Hello and sends Identify. -/
def traceWithB (tb : String) : List ProcStep :=
  [.fetchToken 0 "tokenA", .fetchToken 1 tb, .hello 0]

/-- A placeholder Ed25519 signing function for closed statements (the
claims hold for every signing function; witnesses need a computable
one). -/
def demoSign : List Nat → List Nat → List Nat :=
  fun _ _ => [0, 255]

/-- A placeholder public-key derivation that raises, exercising the
exception path of `verifySignature`. -/
def raisingGetPublicKey : List Nat → Except String (List Nat) :=
  fun _ => .error "bad seed length"

/-- A placeholder verifier for closed statements. -/
def demoVerify : List Nat → List Nat → List Nat → Except String Bool :=
  fun _ _ _ => .ok true

/-- URL-validation payload with a present but empty `plain_token`. -/
def emptyTokenValidationPayload : WebhookPayload :=
  { op := 13, t := none,
    d := some { plain_token := some "", event_ts := some "123" } }

/-- URL-validation payload whose `d` is absent or `null`. -/
def noDataValidationPayload : WebhookPayload :=
  { op := 13, t := none, d := none }

/-- Gateway-discovery response reporting an exhausted session quota. -/
def quotaGateway : GatewayResponse :=
  { url := "wss://gateway", shards := 1,
    session_start_limit := some { total := 100, remaining := 0, reset_after := 5000, max_concurrency := 1 } }

/-- Concrete Ready payload. -/
def demoReady : ReadyPayload :=
  { session_id := "sid", user_id := "uid", username := "name" }

/-- URL-validation payload with both fields present and nonempty. -/
def demoValidationPayload : WebhookPayload :=
  { op := 13, t := none,
    d := some { plain_token := some "abc", event_ts := some "123" } }

/- ## Claims -/

/-- Claim C1 (code-bug evidence): the claim says the signing seed is the
first 32 bytes of the UTF-8 encoding after byte-measured doubling, as
does the code's own documentation comment and the Go reference it
quotes; but the source measures the doubling loop and the truncation in
UTF-16 code units and UTF-8-encodes afterwards. For the one-character
secret U+00E9 the code yields a 64-byte seed, while the byte-measured
derivation yields exactly 32 bytes, so the two disagree (and a 64-byte
seed is not even a legal Ed25519 seed). -/
theorem C1_deriveSeed_divergence :
    (deriveSeed eAcuteSecret).length = 64 ∧
    (deriveSeedSpec eAcuteSecret).length = 32 ∧
    deriveSeed eAcuteSecret ≠ deriveSeedSpec eAcuteSecret := by
  decide

/-- Claim C2 counterexample: a close with the non-fatal code 1000 while
the transport is not being stopped but the reconnect budget is already
spent does not schedule a reconnect — it emits the terminal
max-reconnect error instead, refuting "for every close with a code
outside this set (when the transport is not being stopped), a reconnect
is scheduled". -/
theorem C2_counterexample :
    exhaustedRuntimeState.isClosing = false ∧
    1000 ∉ fatalCloseCodes ∧
    (onClose exhaustedRuntimeState 1000).2 = [RtEvent.errorEmitted RtError.maxReconnect] := by
  decide

/-- Claim C2 (amended): every close with a code in the fatal set puts
the transport in the failed state, invokes `onError` exactly once and
schedules no reconnect; a close with a code outside the set schedules a
reconnect when the transport is not being stopped, has not already
failed fatally, and fewer than the maximum of 5 reconnect attempts have
been used; and once the transport has failed fatally,
`scheduleReconnect` never arms another timer. -/
theorem C2_close_classification (st : RuntimeState) (code : Nat) :
    (code ∈ fatalCloseCodes →
      (onClose st code).1.isFatalError = true ∧
      (onClose st code).2 = [RtEvent.errorEmitted (RtError.fatalClose code)] ∧
      ∀ d, RtEvent.reconnectScheduled d ∉ (onClose st code).2) ∧
    (code ∉ fatalCloseCodes → st.isClosing = false → st.isFatalError = false →
      st.reconnectAttempts < maxReconnectAttempts →
      (onClose st code).2 =
        [RtEvent.reconnectScheduled
          (min (baseReconnectDelay * 2 ^ st.reconnectAttempts) 300000)]) ∧
    (st.isFatalError = true → scheduleReconnect st = (st, [])) := by
  refine ⟨fun hmem => ?_, fun hmem hclos hfat hlt => ?_, fun hfat => ?_⟩
  · simp [onClose, hmem]
  · simp [onClose, hmem, hclos, hfat, scheduleReconnect, Nat.not_le.mpr hlt]
  · simp [scheduleReconnect, hfat]

/-- Claim C2 witness: the amended theorem applied at the initial state,
for the fatal code 4004 and the transient code 1000. -/
theorem C2_close_classification_witness :
    ((onClose initialRuntimeState 4004).1.isFatalError = true ∧
      (onClose initialRuntimeState 4004).2 =
        [RtEvent.errorEmitted (RtError.fatalClose 4004)]) ∧
    (onClose initialRuntimeState 1000).2 = [RtEvent.reconnectScheduled 5000] := by
  refine ⟨⟨((C2_close_classification initialRuntimeState 4004).1 (by decide)).1,
          ((C2_close_classification initialRuntimeState 4004).1 (by decide)).2.1⟩, ?_⟩
  have h := (C2_close_classification initialRuntimeState 1000).2.1
    (by decide) rfl rfl (by decide)
  simpa [initialRuntimeState, baseReconnectDelay] using h

/-- Claim C3: from a state with `n - 1` prior attempts (1 ≤ n ≤ 5) that
is neither closing nor failed, `scheduleReconnect` arms the n-th
reconnect with delay `min(5000 * 2^(n-1), 300000)` ms and records `n`
attempts; once 5 attempts have been made, the next transient close
surfaces the terminal error and schedules nothing; and a Ready dispatch
resets the attempt counter to 0. -/
theorem C3_reconnect_backoff (st : RuntimeState) (n : Nat) :
    (st.isClosing = false → st.isFatalError = false → 1 ≤ n → n ≤ 5 →
      st.reconnectAttempts = n - 1 →
      scheduleReconnect st =
        ({ st with reconnectAttempts := n },
         [RtEvent.reconnectScheduled (min (5000 * 2 ^ (n - 1)) 300000)])) ∧
    (st.isClosing = false → st.isFatalError = false → st.reconnectAttempts ≥ 5 →
      ∀ code, code ∉ fatalCloseCodes →
        (onClose st code).2 = [RtEvent.errorEmitted RtError.maxReconnect]) ∧
    (∀ d : ReadyPayload, (handleReady st d).1.reconnectAttempts = 0) := by
  refine ⟨fun hclos hfat h1 h5 hatt => ?_, fun hclos hfat hge code hmem => ?_,
          fun d => ?_⟩
  · have hlt : ¬ maxReconnectAttempts ≤ n - 1 := by
      simp only [maxReconnectAttempts]; omega
    have hsucc : n - 1 + 1 = n := by omega
    simp [scheduleReconnect, hclos, hfat, hatt, hlt, hsucc, baseReconnectDelay]
  · have hge' : ¬ st.reconnectAttempts < maxReconnectAttempts := by
      simp only [maxReconnectAttempts]; omega
    simp [onClose, hmem, hclos, hfat, scheduleReconnect, Nat.not_lt.mp hge']
  · simp [handleReady]

/-- Claim C3 witness: the backoff theorem applied at the initial state
(first attempt, delay 5000 ms), at the exhausted state with transient
code 1000, and to a concrete Ready payload. -/
theorem C3_reconnect_backoff_witness :
    scheduleReconnect initialRuntimeState =
      ({ initialRuntimeState with reconnectAttempts := 1 },
       [RtEvent.reconnectScheduled 5000]) ∧
    (onClose exhaustedRuntimeState 1000).2 =
      [RtEvent.errorEmitted RtError.maxReconnect] ∧
    (handleReady initialRuntimeState demoReady).1.reconnectAttempts = 0 := by
  refine ⟨?_, ?_, ?_⟩
  · have h := (C3_reconnect_backoff initialRuntimeState 1).1 rfl rfl (by decide)
      (by decide) rfl
    simpa using h
  · exact (C3_reconnect_backoff exhaustedRuntimeState 1).2.1 rfl rfl (by decide)
      1000 (by decide)
  · exact (C3_reconnect_backoff initialRuntimeState 1).2.2 demoReady

/-- Claim C5: when the gateway-discovery response reports
`session_start_limit.remaining == 0`, `start` fails fatally without
opening a socket: the runtime is marked failed, `onError` receives the
quota error carrying the reset time, no socket is opened and no
reconnect is scheduled. -/
theorem C5_quota_exhausted (st : RuntimeState) (now : Nat) (g : GatewayResponse)
    (lim : SessionStartLimit) (hlim : g.session_start_limit = some lim)
    (hrem : lim.remaining = 0) :
    (startWithGateway st now g).1.isFatalError = true ∧
    (startWithGateway st now g).2 =
      [RtEvent.errorEmitted (RtError.quotaExhausted (now + lim.reset_after))] ∧
    (∀ u, RtEvent.socketOpened u ∉ (startWithGateway st now g).2) ∧
    (∀ d, RtEvent.reconnectScheduled d ∉ (startWithGateway st now g).2) := by
  refine ⟨?_, ?_, ?_, ?_⟩ <;>
    simp [startWithGateway, hlim, hrem]

/-- Claim C5 witness: the quota theorem applied at the initial state and
a concrete gateway response with `remaining = 0`. -/
theorem C5_quota_exhausted_witness :
    quotaGateway.session_start_limit =
      some { total := 100, remaining := 0, reset_after := 5000, max_concurrency := 1 } ∧
    (startWithGateway initialRuntimeState 777 quotaGateway).1.isFatalError = true ∧
    (startWithGateway initialRuntimeState 777 quotaGateway).2 =
      [RtEvent.errorEmitted (RtError.quotaExhausted 5777)] := by
  refine ⟨rfl, (C5_quota_exhausted initialRuntimeState 777 quotaGateway _ rfl rfl).1, ?_⟩
  have h := (C5_quota_exhausted initialRuntimeState 777 quotaGateway _ rfl rfl).2.1
  simpa using h

/-- Claim C4 counterexample: with no cached token, two `getToken` calls
overlapping on the event loop each run their cache check before either
has stored a token, so two requests reach the issuance endpoint — not
the single coalesced request the claim states. -/
theorem C4_counterexample :
    emptyClientState.accessToken = none ∧
    twoConcurrentCalls 1000 emptyClientState = 2 ∧ (2 : Nat) ≠ 1 := by
  decide

/-- Claim C4 (amended): there is no single-flight coalescing — every
concurrent caller that finds no valid cached token issues its own
request, so two overlapping calls produce exactly two network requests;
only the cache written by a completed call keeps a later,
non-overlapping call from issuing a request. -/
theorem C4_no_single_flight (now : Nat) (st : ClientState)
    (hmiss : phase1 false now st = .requested) :
    twoConcurrentCalls now st = 2 ∧
    ∀ appId appSecret tok exp now2, tok ≠ "" →
      now2 + 60 * 1000 < now + exp * 1000 →
      (getAccessToken false now2
        (getAccessToken false now st appId appSecret (.ok tok exp)).2.1
        appId appSecret (.ok tok exp)).2.2 = [] := by
  constructor
  · simp [twoConcurrentCalls, hmiss]
  · intro appId appSecret tok exp now2 htok hfresh
    have h1 : getAccessToken false now st appId appSecret (.ok tok exp) =
        (.value tok, { accessToken := some tok, tokenExpiresAt := now + exp * 1000 },
         [{ appId := appId, clientSecret := appSecret }]) := by
      simp [getAccessToken, hmiss, phase2]
    rw [h1]
    simp [getAccessToken, phase1, jsTruthy, htok, hfresh]

/-- Claim C4 witness: the no-single-flight theorem applied at the empty
cache state with a concrete issuance outcome. -/
theorem C4_no_single_flight_witness :
    phase1 false 1000 emptyClientState = Phase1Result.requested ∧
    twoConcurrentCalls 1000 emptyClientState = 2 ∧
    (getAccessToken false 2000
      (getAccessToken false 1000 emptyClientState "app" "sec" (.ok "tok" 7200)).2.1
      "app" "sec" (.ok "tok" 7200)).2.2 = [] := by
  refine ⟨by decide, (C4_no_single_flight 1000 emptyClientState (by decide)).1, ?_⟩
  exact (C4_no_single_flight 1000 emptyClientState (by decide)).2
    "app" "sec" "tok" 7200 2000 (by decide) (by decide)

/-- Claim C6: `getAccessToken` returns the cached value with no request
while the cached expiry is more than 60 seconds past the current time
and no refresh is forced; in every other case (force refresh, no cached
token, or expiry within 60 seconds) it sends exactly one request
carrying the account's appId and secret, caches the returned value with
expiry `now + expires_in * 1000` milliseconds and returns it; a
rejected or failed request is thrown to the caller with no internal
retry and no cache change. -/
theorem C6_token_cache (now : Nat) (st : ClientState) (appId appSecret : String)
    (outcome : FetchOutcome) :
    (∀ v, st.accessToken = some v → v ≠ "" → now + 60 * 1000 < st.tokenExpiresAt →
      getAccessToken false now st appId appSecret outcome = (.value v, st, [])) ∧
    (∀ tok exp,
      (getAccessToken true now st appId appSecret (.ok tok exp) =
        (.value tok, { accessToken := some tok, tokenExpiresAt := now + exp * 1000 },
         [{ appId := appId, clientSecret := appSecret }])) ∧
      (st.accessToken = none →
        getAccessToken false now st appId appSecret (.ok tok exp) =
          (.value tok, { accessToken := some tok, tokenExpiresAt := now + exp * 1000 },
           [{ appId := appId, clientSecret := appSecret }])) ∧
      (st.tokenExpiresAt ≤ now + 60 * 1000 →
        getAccessToken false now st appId appSecret (.ok tok exp) =
          (.value tok, { accessToken := some tok, tokenExpiresAt := now + exp * 1000 },
           [{ appId := appId, clientSecret := appSecret }]))) ∧
    (∀ status text, phase1 false now st = .requested →
      getAccessToken false now st appId appSecret (.httpError status text) =
        (.thrown ("Failed to get access token: " ++ toString status ++ " " ++ text),
         st, [{ appId := appId, clientSecret := appSecret }])) ∧
    (∀ msg, phase1 false now st = .requested →
      getAccessToken false now st appId appSecret (.networkError msg) =
        (.thrown msg, st, [{ appId := appId, clientSecret := appSecret }])) := by
  refine ⟨fun v hv htok hfresh => ?_, fun tok exp => ⟨?_, fun hnone => ?_, fun hexp => ?_⟩,
          fun status text hmiss => ?_, fun msg hmiss => ?_⟩
  · simp [getAccessToken, phase1, jsTruthy, hv, htok, hfresh]
  · simp [getAccessToken, phase1, phase2]
  · simp [getAccessToken, phase1, jsTruthy, hnone, phase2]
  · simp [getAccessToken, phase1, phase2, Nat.not_lt.mpr hexp]
  · simp [getAccessToken, hmiss]
  · simp [getAccessToken, hmiss]

/-- Claim C6 witness: the cache theorem applied at concrete states — a
fresh cached token, an empty cache with a successful issuance, and an
empty cache with a rejected issuance. -/
theorem C6_token_cache_witness :
    getAccessToken false 1000 { accessToken := some "cached", tokenExpiresAt := 100000 }
      "app" "sec" (.ok "new" 7200) =
      (.value "cached", { accessToken := some "cached", tokenExpiresAt := 100000 }, []) ∧
    getAccessToken false 1000 emptyClientState "app" "sec" (.ok "new" 7200) =
      (.value "new", { accessToken := some "new", tokenExpiresAt := 7201000 },
       [{ appId := "app", clientSecret := "sec" }]) ∧
    getAccessToken false 1000 emptyClientState "app" "sec" (.httpError 401 "bad") =
      (.thrown "Failed to get access token: 401 bad", emptyClientState,
       [{ appId := "app", clientSecret := "sec" }]) := by
  refine ⟨(C6_token_cache 1000 _ "app" "sec" (.ok "new" 7200)).1 "cached" rfl
            (by decide) (by decide), ?_, ?_⟩
  · have h := ((C6_token_cache 1000 emptyClientState "app" "sec"
      (.ok "new" 7200)).2.1 "new" 7200).2.1 rfl
    simpa using h
  · have h := (C6_token_cache 1000 emptyClientState "app" "sec"
      (.httpError 401 "bad")).2.2.1 401 "bad" (by decide)
    simpa using h

/-- Reflexivity of the sequence-number comparison between states. -/
theorem seqMono_refl (st : RuntimeState) : SeqMono st st :=
  fun w hw => ⟨w, hw, le_refl w⟩

/-- Effect of one frame on `lastSequence`: overwritten by a carried
sequence number, untouched otherwise. -/
theorem handlePayload_lastSequence (st : RuntimeState) (p : WSPayload) :
    (handlePayload st p).lastSequence =
      (match p.s with | some v => some v | none => st.lastSequence) := by
  cases hs : p.s <;> by_cases hop : p.op = 9 <;> simp [handlePayload, hs, hop]

/-- Processing one frame preserves the nondecreasing-chain hypothesis
for the remaining frames. -/
theorem chain_shift (st : RuntimeState) (p : WSPayload) (ps : List WSPayload)
    (h : List.Chain' (fun a b : Int => a ≤ b)
      (st.lastSequence.toList ++ carriedSeqs (p :: ps))) :
    List.Chain' (fun a b : Int => a ≤ b)
      ((handlePayload st p).lastSequence.toList ++ carriedSeqs ps) := by
  cases hs : p.s with
  | none =>
    have hc : carriedSeqs (p :: ps) = carriedSeqs ps := by simp [carriedSeqs, hs]
    have hl : (handlePayload st p).lastSequence = st.lastSequence := by
      simp [handlePayload_lastSequence, hs]
    rw [hl]
    rwa [hc] at h
  | some v =>
    have hc : carriedSeqs (p :: ps) = v :: carriedSeqs ps := by simp [carriedSeqs, hs]
    have hl : (handlePayload st p).lastSequence = some v := by
      simp [handlePayload_lastSequence, hs]
    rw [hl]
    rw [hc] at h
    cases hw : st.lastSequence with
    | none => rw [hw] at h; simpa using h
    | some w =>
      rw [hw] at h
      simp only [Option.toList] at h ⊢
      exact (List.chain'_cons.mp h).2

/-- One frame cannot decrease `lastSequence` when its carried sequence
number is at least the stored one. -/
theorem seqMono_handlePayload (st : RuntimeState) (p : WSPayload)
    (h : ∀ w v : Int, st.lastSequence = some w → p.s = some v → w ≤ v) :
    SeqMono st (handlePayload st p) := by
  intro w hw
  cases hs : p.s with
  | none => exact ⟨w, by simp [handlePayload_lastSequence, hs, hw], le_refl w⟩
  | some v => exact ⟨v, by simp [handlePayload_lastSequence, hs], h w v hw hs⟩

/-- Stepwise monotonicity of `lastSequence` over a frame list whose
carried sequence numbers extend the stored value nondecreasingly. -/
theorem processFrames_take_mono (ps : List WSPayload) :
    ∀ st : RuntimeState,
      List.Chain' (fun a b : Int => a ≤ b)
        (st.lastSequence.toList ++ carriedSeqs ps) →
      ∀ i : Nat,
        SeqMono (processFrames st (ps.take i)) (processFrames st (ps.take (i + 1))) := by
  induction ps with
  | nil =>
    intro st _ i
    simp only [List.take_nil, processFrames, List.foldl_nil]
    exact seqMono_refl st
  | cons p ps ih =>
    intro st h i
    cases i with
    | zero =>
      simp only [List.take_zero, List.take_succ_cons, processFrames,
        List.foldl_nil, List.foldl_cons]
      apply seqMono_handlePayload
      intro w v hw hv
      rw [hw] at h
      have hc : carriedSeqs (p :: ps) = v :: carriedSeqs ps := by simp [carriedSeqs, hv]
      rw [hc] at h
      simp only [Option.toList] at h
      exact (List.chain'_cons.mp h).1
    | succ i =>
      simp only [List.take_succ_cons, processFrames, List.foldl_cons]
      exact ih (handlePayload st p) (chain_shift st p ps h) i

/-- Claim C7 counterexample: within one connection, frames carrying the
sequence numbers 5 then 3 drive `lastSequence` from 5 down to 3 — the
source assigns the carried value with no monotonicity guard, refuting
"each update leaves it greater than or equal to its previous value". -/
theorem C7_counterexample :
    (handlePayload initialRuntimeState { op := 0, s := some 5 }).lastSequence = some 5 ∧
    (processFrames initialRuntimeState decreasingFrames).lastSequence = some 3 ∧
    (3 : Int) < 5 := by
  decide

/-- Claim C7 (amended): `lastSequence` is overwritten by the carried
sequence number of every frame that has one and untouched by frames
without one, so it never decreases at any step provided the carried
sequence numbers arrive nondecreasingly (starting from the stored
value); frame processing never nulls it — only `stop` does. -/
theorem C7_lastSequence (st : RuntimeState) (ps : List WSPayload)
    (hchain : List.Chain' (fun a b : Int => a ≤ b)
      (st.lastSequence.toList ++ carriedSeqs ps)) :
    (∀ i : Nat,
      SeqMono (processFrames st (ps.take i)) (processFrames st (ps.take (i + 1)))) ∧
    (∀ u : RuntimeState, ∀ q : WSPayload, ∀ v : Int, q.s = some v →
      (handlePayload u q).lastSequence = some v) ∧
    (∀ u : RuntimeState, ∀ q : WSPayload,
      (handlePayload u q).lastSequence = none → u.lastSequence = none) ∧
    (∀ u : RuntimeState, (stop u).lastSequence = none) := by
  refine ⟨processFrames_take_mono ps st hchain, fun u q v hv => ?_, fun u q => ?_, fun u => ?_⟩
  · simp [handlePayload_lastSequence, hv]
  · rw [handlePayload_lastSequence]
    cases hs : q.s <;> simp
  · simp [stop]

/-- Claim C7 witness: the monotonicity theorem applied to two concrete
frames carrying 2 then 5 from the initial state. -/
theorem C7_lastSequence_witness :
    List.Chain' (fun a b : Int => a ≤ b)
      (initialRuntimeState.lastSequence.toList ++ carriedSeqs demoFrames) ∧
    ∀ i : Nat,
      SeqMono (processFrames initialRuntimeState (demoFrames.take i))
        (processFrames initialRuntimeState (demoFrames.take (i + 1))) := by
  have hch : List.Chain' (fun a b : Int => a ≤ b)
      (initialRuntimeState.lastSequence.toList ++ carriedSeqs demoFrames) := by
    simp [initialRuntimeState, carriedSeqs, demoFrames, List.chain'_cons]
  exact ⟨hch, (C7_lastSequence initialRuntimeState demoFrames hch).1⟩

/-- Claim C8 counterexample: two process executions in which account 0
performs exactly the same actions with exactly the same credentials,
differing only in the token account 1 fetched, give account 0 different
Identify tokens — account 0 sends account 1's token, because
`cachedAccessToken` is one module-level variable shared by every
runtime in the process. -/
theorem C8_counterexample :
    ((runProc initialProcessState (traceWithB "tokenB1")).2.map
      (fun e => (e.1, e.2.token))) = [(0, "QQBot tokenB1")] ∧
    ((runProc initialProcessState (traceWithB "tokenB2")).2.map
      (fun e => (e.1, e.2.token))) = [(0, "QQBot tokenB2")] ∧
    (runProc initialProcessState (traceWithB "tokenB1")).2 ≠
      (runProc initialProcessState (traceWithB "tokenB2")).2 := by
  decide

/-- Claim C8 (amended): the Identify token is read from the single
process-wide `cachedAccessToken`; a token fetch by any account
overwrites it identically regardless of which account fetched,
`sendIdentify` depends only on that shared variable, and in a run where
account 0 fetches its own token, account 1 then fetches another token
and account 0 then identifies, account 0's Identify frame carries
account 1's token whatever account 0's own token was. -/
theorem C8_shared_token_cache :
    (∀ ps : ProcessState, ∀ a a2 : Nat, ∀ t : String, ∀ steps : List ProcStep,
      runProc ps (.fetchToken a t :: steps) = runProc ps (.fetchToken a2 t :: steps)) ∧
    (∀ ps : ProcessState,
      (sendIdentify ps).token = "QQBot " ++ ps.cachedAccessToken.getD "null") ∧
    (∀ tA tB : String,
      ((runProc initialProcessState
        [.fetchToken 0 tA, .fetchToken 1 tB, .hello 0]).2.map
          (fun e => (e.1, e.2.token))) = [(0, "QQBot " ++ tB)]) := by
  refine ⟨fun ps a a2 t steps => ?_, fun ps => ?_, fun tA tB => ?_⟩
  · simp [runProc]
  · simp [sendIdentify]
  · simp [runProc, sendIdentify]

/-- Claim C9 counterexample: an op-13 body whose `d.plain_token` is
present but empty is answered 400, although the claim requires a 200
response whenever neither field is missing. -/
theorem C9_counterexample :
    emptyTokenValidationPayload.op = 13 ∧
    emptyTokenValidationPayload.d =
      some { plain_token := some "", event_ts := some "123" } ∧
    (processRequest raisingGetPublicKey demoVerify demoSign "secret" none none ""
      emptyTokenValidationPayload).1.status = 400 := by
  decide

/-- Claim C9 (amended): for every POSTed body parsing to op = 13: when
`d` is absent or null, reading `plain_token` off it throws and the
catch answers 500; when `d` is present and `plain_token` or `event_ts`
is missing or empty, the server responds 400; otherwise it responds 200
with body `(plain_token, signature)` where the signature is the hex
encoding of the Ed25519 signature over `event_ts + plain_token` under
the key derived from the account secret; in all cases the outcome is
the same whatever the signature headers are (none are required). -/
theorem C9_url_validation
    (edGetPublicKey : List Nat → Except String (List Nat))
    (edVerify : List Nat → List Nat → List Nat → Except String Bool)
    (edSign : List Nat → List Nat → List Nat)
    (appSecret rawBody : String) (sh th : Option String)
    (payload : WebhookPayload) (hop : payload.op = 13) :
    (payload.d = none →
      processRequest edGetPublicKey edVerify edSign appSecret sh th rawBody payload =
        ({ status := 500, body := .errorMsg "Internal server error" }, [])) ∧
    (∀ data : URLValidationData, payload.d = some data →
      (jsTruthy data.plain_token = false ∨ jsTruthy data.event_ts = false) →
      processRequest edGetPublicKey edVerify edSign appSecret sh th rawBody payload =
        ({ status := 400, body := .errorMsg "Missing plain_token or event_ts" }, [])) ∧
    (∀ data : URLValidationData, ∀ pt et : String, payload.d = some data →
      data.plain_token = some pt → pt ≠ "" →
      data.event_ts = some et → et ≠ "" →
      processRequest edGetPublicKey edVerify edSign appSecret sh th rawBody payload =
        ({ status := 200,
           body := .validation pt
             (bytesToHex (edSign (utf8Encode (strUnits (et ++ pt)))
               (deriveSeed appSecret))) }, [])) ∧
    (processRequest edGetPublicKey edVerify edSign appSecret sh th rawBody payload =
      processRequest edGetPublicKey edVerify edSign appSecret none none rawBody payload) := by
  refine ⟨fun hd => ?_, fun data hd hfalsy => ?_,
          fun data pt et hd hpt hptne het hetne => ?_, ?_⟩
  · simp [processRequest, processRequestE, hop, handleURLValidation, hd]
  · rcases hfalsy with hf | hf <;>
      simp [processRequest, processRequestE, hop, handleURLValidation, hd, hf]
  · simp [processRequest, processRequestE, hop, handleURLValidation, hd, jsTruthy,
      hpt, het, hptne, hetne, signCallbackResponse, getPrivateKey]
  · simp [processRequest, processRequestE, hop]

/-- Claim C9 witness: the validation theorem applied to a concrete
payload with `plain_token = "abc"`, `event_ts = "123"`, a concrete
signing function and signature headers present (they are ignored), and
to a concrete op-13 payload whose `d` is nullish (answered 500). -/
theorem C9_url_validation_witness :
    processRequest raisingGetPublicKey demoVerify demoSign "secret"
      (some "sig") (some "ts") "" demoValidationPayload =
      ({ status := 200, body := .validation "abc" "00ff" }, []) ∧
    processRequest raisingGetPublicKey demoVerify demoSign "secret" none none ""
      noDataValidationPayload =
      ({ status := 500, body := .errorMsg "Internal server error" }, []) := by
  constructor
  · have h := (C9_url_validation raisingGetPublicKey demoVerify demoSign "secret" ""
      (some "sig") (some "ts") demoValidationPayload rfl).2.2.1
      { plain_token := some "abc", event_ts := some "123" } "abc" "123"
      rfl rfl (by decide) rfl (by decide)
    rw [h]
    decide
  · exact (C9_url_validation raisingGetPublicKey demoVerify demoSign "secret" ""
      none none noDataValidationPayload rfl).1 rfl

/-- Claim C10: `verifySignature` is the catch-to-false wrapper of its
body — for every input (including signature strings that are not valid
hexadecimal or have odd length) and every behavior of the Ed25519
library calls, an exception raised inside the body yields `false` and a
normal completion yields that boolean, so the function always returns a
boolean and never propagates an exception; moreover `hexToBytes` is
total and yields `hex.length / 2` bytes for every string. -/
theorem C10_verifySignature_total
    (edGetPublicKey : List Nat → Except String (List Nat))
    (edVerify : List Nat → List Nat → List Nat → Except String Bool)
    (signature timestamp body botSecret : String) :
    (∀ e, verifySignatureE edGetPublicKey edVerify signature timestamp body botSecret
        = .error e →
      verifySignature edGetPublicKey edVerify signature timestamp body botSecret = false) ∧
    (∀ b, verifySignatureE edGetPublicKey edVerify signature timestamp body botSecret
        = .ok b →
      verifySignature edGetPublicKey edVerify signature timestamp body botSecret = b) ∧
    (hexToBytes signature).length = jsLen signature / 2 := by
  refine ⟨fun e he => ?_, fun b hb => ?_, ?_⟩
  · simp [verifySignature, he]
  · simp [verifySignature, hb]
  · simp [hexToBytes]

/-- Claim C10 witness: the totality theorem applied to an odd-length,
non-hexadecimal signature string and a key-derivation call that
raises — the result is `false`, not an exception. -/
theorem C10_verifySignature_total_witness :
    verifySignatureE raisingGetPublicKey demoVerify "zzz" "ts" "body" "secret" =
      .error "bad seed length" ∧
    verifySignature raisingGetPublicKey demoVerify "zzz" "ts" "body" "secret" = false ∧
    (hexToBytes "zzz").length = 1 := by
  refine ⟨by rfl, ?_, ?_⟩
  · exact (C10_verifySignature_total raisingGetPublicKey demoVerify
      "zzz" "ts" "body" "secret").1 "bad seed length" (by rfl)
  · have h := (C10_verifySignature_total raisingGetPublicKey demoVerify
      "zzz" "ts" "body" "secret").2.2
    rw [h]
    decide
